import Mathlib

/-!
Verification of the hapivet prompt-library routing core against its
specification.  The definitions below are a shallow embedding of the Python
source (src/src/services/model_manager.py, src/src/services/usage_monitor.py,
src/src/services/cost_optimizer.py, src/src/models/base_model.py) into Lean:
Python str becomes String, Python int becomes Int (or Nat where the source
value is a count), Python float becomes ℚ (idealised real arithmetic), dicts
become association lists or explicit maps, and the external Redis / database /
provider-SDK collaborators become explicit state components or oracle
functions.  Exceptions are modelled by Option / explicit error branches.
-/

namespace Hapivet

/-- Model of Python `str.lower()` (the source only ever lowercases ASCII
prompt text; `Char.toLower` agrees with Python on ASCII). -/
def pyLower (s : String) : String :=
  ⟨s.data.map Char.toLower⟩

/-- Model of Python `str.strip()`: drop whitespace from both ends. -/
def pyStrip (s : String) : String :=
  ⟨((s.data.dropWhile Char.isWhitespace).reverse.dropWhile Char.isWhitespace).reverse⟩

/-- Infix test on character lists: the needle occurs as a contiguous
sublist of the haystack. -/
def listInfixCheck (needle : List Char) : List Char → Bool
  | [] => needle.isEmpty
  | c :: rest => needle.isPrefixOf (c :: rest) || listInfixCheck needle rest

/-- Model of the Python substring test `needle in hay`. -/
def pyContains (hay needle : String) : Bool :=
  listInfixCheck needle.toList hay.toList

/-! ## CapabilityDetector (ModelManager.detect_capabilities)

The keyword tables are transcribed verbatim from
`model_manager.py::detect_capabilities` (note that the source lists
`'screenshot'` twice in the `visual_analysis` keyword list). -/

/-- Keyword list of the `coding` task pattern. -/
def codingKeywords : List String :=
  ["code", "program", "function", "class", "debug", "algorithm",
   "api", "database", "python", "javascript", "java", "html", "css",
   "sql", "typescript", "rust", "c++", "compile", "syntax", "error",
   "bug", "fix", "implement", "develop", "build", "deploy", "test",
   "unit test", "integration", "framework", "library", "package",
   "repository", "git", "version control", "refactor", "optimize"]

/-- Keyword list of the `conversation` task pattern. -/
def conversationKeywords : List String :=
  ["chat", "conversation", "talk", "discuss", "converse", "dialogue",
   "casual", "informal", "friendly", "helpful", "assistant", "chatbot",
   "natural", "human-like", "personality", "tone", "style"]

/-- Keyword list of the `document_analysis` task pattern. -/
def documentAnalysisKeywords : List String :=
  ["document", "pdf", "text", "extract", "parse", "analyze", "summarize",
   "outline", "structure", "organize", "categorize", "classify",
   "research", "paper", "article", "report", "review", "synthesis",
   "long", "extensive", "comprehensive", "detailed", "thorough"]

/-- Keyword list of the `visual_analysis` task pattern; the source has
`'screenshot'` listed twice. -/
def visualAnalysisKeywords : List String :=
  ["image", "picture", "photo", "visual", "chart", "graph", "diagram",
   "plot", "figure", "illustration", "drawing", "sketch", "design",
   "layout", "ui", "ux", "interface", "screenshot", "screenshot",
   "multimodal", "vision", "optical", "recognition", "detect",
   "identify", "describe", "caption", "annotate"]

/-- Keyword list of the `mathematical_reasoning` task pattern. -/
def mathematicalReasoningKeywords : List String :=
  ["math", "mathematical", "calculation", "equation", "formula",
   "solve", "compute", "calculate", "statistics", "probability",
   "algebra", "calculus", "geometry", "trigonometry", "arithmetic",
   "number", "numeric", "quantitative", "analysis", "modeling",
   "prediction", "forecast", "trend", "pattern", "correlation"]

/-- Keyword list of the `creative_writing` task pattern. -/
def creativeWritingKeywords : List String :=
  ["write", "create", "generate", "compose", "craft", "story",
   "poem", "essay", "article", "blog", "content", "creative",
   "imaginative", "fictional", "narrative", "descriptive",
   "persuasive", "informative", "entertaining", "engaging"]

/-- Keyword list of the `logical_reasoning` task pattern. -/
def logicalReasoningKeywords : List String :=
  ["explain", "analyze", "compare", "why", "how", "reason", "logic",
   "think", "consider", "evaluate", "assess", "examine", "investigate",
   "deduce", "infer", "conclude", "argument", "premise", "conclusion",
   "valid", "sound", "rational", "systematic", "methodical"]

/-- Keyword list of the `business_analysis` task pattern. -/
def businessAnalysisKeywords : List String :=
  ["business", "market", "strategy", "planning", "analysis",
   "report", "presentation", "proposal", "recommendation",
   "financial", "budget", "cost", "revenue", "profit", "loss",
   "investment", "risk", "opportunity", "competitive", "industry"]

/-- Keyword list of the `educational_content` task pattern. -/
def educationalContentKeywords : List String :=
  ["teach", "learn", "education", "tutorial", "lesson", "course",
   "explain", "instruct", "guide", "help", "student", "teacher",
   "academic", "scholarly", "pedagogical", "curriculum", "syllabus",
   "assignment", "homework", "exam", "quiz", "assessment"]

/-- The `task_patterns` table of `detect_capabilities`: category name,
keyword list, integer weight, in the source's insertion order. -/
def taskPatterns : List (String × List String × Nat) :=
  [("coding", codingKeywords, 10),
   ("conversation", conversationKeywords, 8),
   ("document_analysis", documentAnalysisKeywords, 9),
   ("visual_analysis", visualAnalysisKeywords, 9),
   ("mathematical_reasoning", mathematicalReasoningKeywords, 8),
   ("creative_writing", creativeWritingKeywords, 7),
   ("logical_reasoning", logicalReasoningKeywords, 8),
   ("business_analysis", businessAnalysisKeywords, 7),
   ("educational_content", educationalContentKeywords, 7)]

/-- Score accumulation loop of `detect_capabilities`: for every keyword in
the pattern's list that occurs in the lowercased prompt, add the pattern's
weight (starting from 0). -/
def categoryScore (plow : String) (keywords : List String) (weight : Nat) : Nat :=
  keywords.foldl (fun acc kw => if pyContains plow kw then acc + weight else acc) 0

/-- The `task_scores` dictionary of `detect_capabilities`: category/score
pairs, only categories whose score is positive, in table order. -/
def taskScoresOf (plow : String) : List (String × Nat) :=
  taskPatterns.filterMap fun p =>
    let s := categoryScore plow p.2.1 p.2.2
    if s > 0 then some (p.1, s) else none

/-- Stable insertion (descending by the key) used to model Python
`sorted(..., key=score, reverse=True)`: an element coming from an earlier
position is placed before every later element with a key that is not
larger. -/
def insertScoreDesc {α β : Type} [LinearOrder β] (key : α → β) (x : α) : List α → List α
  | [] => [x]
  | y :: ys => if key y ≤ key x then x :: y :: ys else y :: insertScoreDesc key x ys

/-- Stable descending sort by a key, modelling Python's stable
`sorted(..., reverse=True)`. -/
def sortScoreDesc {α β : Type} [LinearOrder β] (key : α → β) : List α → List α
  | [] => []
  | x :: xs => insertScoreDesc key x (sortScoreDesc key xs)

/-- The length-indicator table of `detect_capabilities`, in source order. -/
def lengthIndicators : List (String × List String) :=
  [("long", ["long", "extensive", "comprehensive", "detailed", "thorough", "200k", "large", "full"]),
   ("medium", ["moderate", "standard", "normal", "typical", "average"]),
   ("short", ["brief", "concise", "quick", "short", "summary", "outline"])]

/-- The complexity-indicator table of `detect_capabilities`, in source order. -/
def complexityIndicators : List (String × List String) :=
  [("complex", ["complex", "advanced", "sophisticated", "intricate", "detailed", "comprehensive"]),
   ("moderate", ["moderate", "intermediate", "standard", "normal"]),
   ("simple", ["simple", "basic", "elementary", "straightforward", "quick"])]

/-- The domain-indicator table of `detect_capabilities`, in source order. -/
def domainIndicators : List (String × List String) :=
  [("legal", ["legal", "law", "contract", "compliance", "regulation", "policy"]),
   ("medical", ["medical", "health", "clinical", "diagnosis", "treatment", "patient"]),
   ("financial", ["financial", "banking", "investment", "trading", "accounting"]),
   ("scientific", ["scientific", "research", "experiment", "hypothesis", "methodology"]),
   ("technical", ["technical", "engineering", "architecture", "system", "infrastructure"])]

/-- First-match-wins scan over an indicator table (the source iterates the
dict in insertion order and breaks at the first group with any match),
falling back to the given default. -/
def firstMatchScan (plow : String) (table : List (String × List String)) (dflt : String) : String :=
  match table.find? (fun p => p.2.any (fun w => pyContains plow w)) with
  | some p => p.1
  | none => dflt

/-- The specific-requirement checks of `detect_capabilities`, in source
order (each check appends its tag when any of its words occurs). -/
def requirementChecks : List (String × List String) :=
  [("open_source", ["free", "open source", "transparent"]),
   ("safety_focused", ["safe", "ethical", "responsible", "aligned"]),
   ("google_ecosystem", ["google", "gmail", "docs", "sheets", "colab"]),
   ("multimodal", ["multimodal", "vision", "image", "visual"]),
   ("conversational", ["conversation", "chat", "natural"])]

/-- The capability profile produced by `detect_capabilities`. -/
structure Capabilities where
  primary_task : String
  secondary_tasks : List String
  context_length : String
  complexity : String
  domain : String
  specific_requirements : List String
deriving DecidableEq

/-- Model of `ModelManager.detect_capabilities`: lowercase the prompt, score
every task pattern, rank the positive scores descending by a stable sort,
take the top category as primary (defaulting to `text_generation` when no
keyword matched), the next up to two categories with score above 5 as
secondary, and scan the length / complexity / domain indicator tables
first-match-wins; the requirement checks accumulate independently. -/
def detect_capabilities (prompt : String) : Capabilities :=
  let plow := pyLower prompt
  let sortedTasks := sortScoreDesc (fun x => x.2) (taskScoresOf plow)
  { primary_task :=
      match sortedTasks with
      | [] => "text_generation"
      | x :: _ => x.1
    secondary_tasks :=
      (((sortedTasks.drop 1).take 2).filter (fun x => x.2 > 5)).map (·.1)
    context_length := firstMatchScan plow lengthIndicators "short"
    complexity := firstMatchScan plow complexityIndicators "simple"
    domain := firstMatchScan plow domainIndicators "general"
    specific_requirements :=
      requirementChecks.filterMap fun p =>
        if p.2.any (fun w => pyContains plow w) then some p.1 else none }

/-! ## ProviderAdapter data (BaseAIModel) and ModelScorer
(ModelManager.calculate_model_score) -/

/-- Model of a `BaseAIModel` adapter: its descriptor fields plus its
per-provider token estimator (`estimate_tokens`), which is an external
heuristic (tiktoken or character-count based) kept abstract as a function. -/
structure Model where
  model_id : String
  name : String
  provider : String
  cost_per_1k_tokens : ℚ
  max_tokens : Nat
  is_available : Bool
  estimate : String → Nat

/-- Model of the application settings holding the four provider credentials
(`config_manager.settings`); a Python `None` key is `none`. -/
structure Settings where
  openai_api_key : Option String
  anthropic_api_key : Option String
  google_api_key : Option String
  deepseek_api_key : Option String

/-- Truthiness chain `bool(key and key.strip() and key != placeholder)` used
by `_check_api_key_availability` for one provider's credential. -/
def keyTruthy (key : Option String) (placeholder : String) : Bool :=
  match key with
  | none => false
  | some k => (k ≠ "") && (pyStrip k ≠ "") && (k ≠ placeholder)

/-- Model of `ModelManager._check_api_key_availability`: per-provider
credential check against the literal placeholder values; unknown providers
are unavailable. -/
def check_api_key_availability (st : Settings) (provider : String) : Bool :=
  if provider = "openai" then keyTruthy st.openai_api_key "your_openai_key"
  else if provider = "anthropic" then keyTruthy st.anthropic_api_key "your_anthropic_key"
  else if provider = "google" then keyTruthy st.google_api_key "your_google_key"
  else if provider = "deepseek" then keyTruthy st.deepseek_api_key "your_deepseek_key"
  else false

/-- Model of `BaseAIModel.is_available_for_request`: the availability flag
must be set and the adapter's own token estimate of the prompt must not
exceed the model's max_tokens. -/
def is_available_for_request (m : Model) (prompt : String) : Bool :=
  m.is_available && !(m.estimate prompt > m.max_tokens)

/-- Providers present in `ModelManager.model_strengths` (the scorer returns
0 immediately for any other provider). -/
def strengthProviders : List String :=
  ["openai", "anthropic", "google", "deepseek"]

/-- Primary-task bonus table of `calculate_model_score` (the if/elif chains
keyed on primary_task and provider). -/
def primaryTaskScore (provider task : String) : ℚ :=
  if task = "coding" then
    (if provider = "deepseek" then 15 else if provider = "openai" then 12
     else if provider = "google" then 8 else if provider = "anthropic" then 6 else 0)
  else if task = "conversation" then
    (if provider = "openai" then 15 else if provider = "anthropic" then 10
     else if provider = "google" then 8 else if provider = "deepseek" then 6 else 0)
  else if task = "document_analysis" then
    (if provider = "anthropic" then 15 else if provider = "openai" then 10
     else if provider = "google" then 12 else if provider = "deepseek" then 6 else 0)
  else if task = "visual_analysis" then
    (if provider = "google" then 15 else if provider = "openai" then 12
     else if provider = "deepseek" then 10 else if provider = "anthropic" then 6 else 0)
  else if task = "mathematical_reasoning" then
    (if provider = "deepseek" then 12 else if provider = "google" then 10
     else if provider = "openai" then 8 else if provider = "anthropic" then 8 else 0)
  else if task = "logical_reasoning" then
    (if provider = "anthropic" then 15 else if provider = "openai" then 12
     else if provider = "google" then 8 else if provider = "deepseek" then 8 else 0)
  else 0

/-- Context-length bonus of `calculate_model_score` (applies only when the
detected context length is `long`). -/
def contextLengthScore (provider ctx : String) : ℚ :=
  if ctx = "long" then
    (if provider = "anthropic" then 8 else if provider = "google" then 6
     else if provider = "openai" then 4 else if provider = "deepseek" then 4 else 0)
  else 0

/-- Per-requirement bonus of `calculate_model_score` (the if/elif chain in
the requirement loop; at most one branch fires per entry). -/
def requirementScore (provider req : String) : ℚ :=
  if req = "open_source" ∧ provider = "deepseek" then 10
  else if req = "safety_focused" ∧ provider = "anthropic" then 10
  else if req = "google_ecosystem" ∧ provider = "google" then 10
  else if req = "multimodal" ∧ provider = "google" then 8
  else if req = "conversational" ∧ provider = "openai" then 8
  else 0

/-- Domain bonus of `calculate_model_score`. -/
def domainScore (provider domain : String) : ℚ :=
  if domain = "legal" ∧ provider = "anthropic" then 8
  else if domain = "medical" ∧ provider = "anthropic" then 8
  else if domain = "scientific" ∧ provider = "google" then 8
  else if domain = "technical" ∧ provider = "openai" then 6
  else 0

/-- Model of `ModelManager.calculate_model_score`: for a provider listed in
`model_strengths`, the sum of the primary-task, context-length, requirement
and domain bonuses minus the cost penalty `cost_per_1k_tokens * 1000`;
any other provider scores 0 (early return before the cost penalty). -/
def calculate_model_score (m : Model) (caps : Capabilities) : ℚ :=
  if m.provider ∈ strengthProviders then
    primaryTaskScore m.provider caps.primary_task
      + contextLengthScore m.provider caps.context_length
      + (caps.specific_requirements.map (requirementScore m.provider)).sum
      + domainScore m.provider caps.domain
      - m.cost_per_1k_tokens * 1000
  else 0

/-! ## Router (ModelManager.process_request) -/

/-- Model of a `PromptRequest` (pydantic model in types.py); the timestamp
plays no role in routing and is omitted. -/
structure PromptRequest where
  id : String
  user_id : String
  prompt : String
  context : String
  model_preference : Option String
  max_tokens : Option Nat
deriving DecidableEq

/-- Model of a `PromptResponse` (pydantic model in types.py); the datetime
timestamp is modelled as an opaque string supplied by the environment. -/
structure PromptResponse where
  id : String
  request_id : String
  model_used : String
  response : String
  tokens_used : Int
  cost : ℚ
  timestamp : String
deriving DecidableEq

/-- Model of `BaseAIModel.calculate_cost`: `(tokens / 1000) *
cost_per_1k_tokens` with Python 3 true division. -/
def calculate_cost (m : Model) (tokens : Int) : ℚ :=
  ((tokens : ℚ) / 1000) * m.cost_per_1k_tokens

/-- Model of `BaseAIModel.create_response`; the fresh uuid and the wall
clock are external inputs, passed explicitly. -/
def create_response (m : Model) (req : PromptRequest) (response_text : String)
    (tokens_used : Int) (uuid now : String) : PromptResponse :=
  { id := uuid
    request_id := req.id
    model_used := m.model_id
    response := response_text
    tokens_used := tokens_used
    cost := calculate_cost m tokens_used
    timestamp := now }

/-- A raised Python exception, as its class name plus message. -/
structure PyError where
  py_type : String
  message : String
deriving DecidableEq

/-- Routing environment: the `ModelManager`'s model registry, the settings,
and an oracle for the outcome of each model's `generate_response` network
call (keyed by model id; `Except.error` is the raised exception rendered as
a string). -/
structure RouterEnv where
  models : List Model
  settings : Settings
  gen : String → Except String PromptResponse

/-- Model of `ModelManager.get_model_by_id` (dict lookup; ids are unique). -/
def get_model_by_id (env : RouterEnv) (model_id : String) : Option Model :=
  env.models.find? (fun m => m.model_id = model_id)

/-- Model of `ModelManager.get_model_fallback_order`: filter the registry to
models with a valid credential that are available for the request, score
them, and stable-sort descending by score. -/
def get_model_fallback_order (env : RouterEnv) (req : PromptRequest)
    (caps : Capabilities) : List Model :=
  let available := env.models.filter fun m =>
    check_api_key_availability env.settings m.provider && is_available_for_request m req.prompt
  let scored := available.map fun m => (m, calculate_model_score m caps)
  (sortScoreDesc (fun x => x.2) scored).map (·.1)

/-- The fallback loop of `process_request`: try each model in order,
returning the first success, threading the most recent error; the result is
(success if any, list of model ids actually invoked, last error). -/
def tryModels (gen : String → Except String PromptResponse) :
    List Model → Option String → Option PromptResponse × List String × Option String
  | [], lastErr => (none, [], lastErr)
  | m :: rest, lastErr =>
    match gen m.model_id with
    | .ok r => (some r, [m.model_id], lastErr)
    | .error e =>
      let (res, tr, l) := tryModels gen rest (some e)
      (res, m.model_id :: tr, l)

/-- Outcome of the preferred-model phase of `process_request`: `none` when
no preferred-model attempt happens, otherwise the attempted model id and
the call's outcome. -/
def preferredAttempt (env : RouterEnv) (req : PromptRequest) :
    Option (Option PromptResponse × String) :=
  match req.model_preference with
  | none => none
  | some p =>
    if p = "auto" then none
    else
      match get_model_by_id env p with
      | none => none
      | some m =>
        if check_api_key_availability env.settings m.provider then
          match env.gen m.model_id with
          | .ok r => some (some r, m.model_id)
          | .error _ => some (none, m.model_id)
        else none

/-- The fallback phase of `process_request` (lines after the preferred
attempt): raise `ValueError("No suitable model available for this
request")` when the fallback list is empty, otherwise try each candidate
in order and on exhaustion raise `ValueError("All N available models
failed. Last error: ...")` carrying the most recent error. -/
def dispatchFallback (env : RouterEnv) (req : PromptRequest) (caps : Capabilities)
    (prefTrace : List String) : Except PyError PromptResponse × List String :=
  let fallback := get_model_fallback_order env req caps
  match fallback with
  | [] =>
    (.error ⟨"ValueError", "No suitable model available for this request"⟩, prefTrace)
  | _ =>
    match tryModels env.gen fallback none with
    | (some r, tr, _) => (.ok r, prefTrace ++ tr)
    | (none, tr, lastErr) =>
      (.error ⟨"ValueError",
        "All " ++ toString fallback.length ++ " available models failed. Last error: "
          ++ (match lastErr with | some e => e | none => "None")⟩,
       prefTrace ++ tr)

/-- Model of `ModelManager.process_request`: try the preferred model first
(credential check only), then fall back to the scored order
(`dispatchFallback`).  The second component is the trace of model ids
whose `generate_response` was invoked. -/
def process_request (env : RouterEnv) (req : PromptRequest) :
    Except PyError PromptResponse × List String :=
  let caps := detect_capabilities req.prompt
  match preferredAttempt env req with
  | some (some r, mid) => (.ok r, [mid])
  | some (none, mid) => dispatchFallback env req caps [mid]
  | none => dispatchFallback env req caps []

/-! ## CostLedger (CostOptimizer.record_usage)

The in-memory `monthly_usage` dict is modelled as a map from provider name
to the per-month record; the Redis `setex` mirror stores the very same
record under the month key and is not modelled separately. -/

/-- One `monthly_usage` record: tokens, cost (ℚ for Python float), request
count. -/
structure MonthlyUsage where
  tokens_used : Int
  cost : ℚ
  requests : Int
deriving DecidableEq

/-- Model of `CostOptimizer.record_usage` on the `monthly_usage` dict: a
missing provider entry is first initialised to zero, then each field is
incremented additively. -/
def costRecordUsage (mu : String → Option MonthlyUsage) (provider : String)
    (tokens : Int) (cost : ℚ) : String → Option MonthlyUsage :=
  let cur := (mu provider).getD ⟨0, 0, 0⟩
  fun k => if k = provider
    then some ⟨cur.tokens_used + tokens, cur.cost + cost, cur.requests + 1⟩
    else mu k

/-! ## UsageAnomalyMonitor (UsageMonitor)

The Redis store is modelled by three typed components (hourly counters,
historical windows, alert-cooldown keys), the database by append-only row
lists, and the logger by a list of error-site tags.  The scenarios the
claims quantify over stay inside one TTL window, so key expiry never fires
and is not modelled.  The only failable operations in this embedding are
the two `int(user_id)` conversions in the database writes (Redis and the
session itself are assumed reachable, per the spec's collaborator model). -/

/-- Association-list update: overwrite the value at a key or append the
binding (models a dict/Redis `set`). -/
def setKey {β : Type} (k : String) (v : β) : List (String × β) → List (String × β)
  | [] => [(k, v)]
  | (k', v') :: rest => if k' = k then (k, v) :: rest else (k', v') :: setKey k v rest

/-- Digit run of a Python decimal integer literal after its first digit:
single underscores are allowed between digits. -/
def pyDigitsRest : List Char → Nat → Option Nat
  | [], acc => some acc
  | '_' :: c :: rest, acc =>
    if c.isDigit then pyDigitsRest rest (acc * 10 + (c.toNat - '0'.toNat)) else none
  | c :: rest, acc =>
    if c.isDigit then pyDigitsRest rest (acc * 10 + (c.toNat - '0'.toNat)) else none

/-- Digit run of a Python decimal integer literal: at least one digit, no
leading underscore. -/
def pyDigits : List Char → Option Nat
  | [] => none
  | c :: rest =>
    if c.isDigit then pyDigitsRest rest (c.toNat - '0'.toNat) else none

/-- Model of Python `int(s)` on a decimal string: strip whitespace, an
optional sign, then digits (ASCII; underscores between digits accepted).
`none` models the `ValueError` the conversion raises otherwise. -/
def pyInt (s : String) : Option Int :=
  match (pyStrip s).toList with
  | '+' :: rest => (pyDigits rest).map (fun n => (n : Int))
  | '-' :: rest => (pyDigits rest).map (fun n => -(n : Int))
  | rest => (pyDigits rest).map (fun n => (n : Int))

/-- A `TokenUsage` event (types.py); the timestamp is irrelevant to the
monitor (it reads the wall clock itself) and is omitted. -/
structure TokenUsage where
  user_id : String
  model_id : String
  tokens_used : Int
  cost : ℚ
  request_id : String
deriving DecidableEq

/-- A row of the `usage_alerts` database table as written by
`_create_alert`. -/
structure DbAlert where
  user_id : Int
  alert_type : String
  message : String
  severity : String
deriving DecidableEq

/-- A row of the `requests` database table as written by `record_usage`
(the prompt and response columns are written as empty strings). -/
structure DbRequest where
  user_id : Int
  model_used : String
  tokens_used : Int
  cost : ℚ
deriving DecidableEq

/-- Monitor state: Redis hourly counters, Redis historical windows, Redis
alert-cooldown keys, the two database tables, and the error log. -/
structure MonitorState where
  counters : List (String × Int)
  historical : List (String × List Int)
  alertKeys : List String
  dbRequests : List DbRequest
  dbAlerts : List DbAlert
  errors : List String
deriving DecidableEq

/-- Monitoring thresholds of `UsageMonitor.__init__` (defaults 1000/10000;
the cooldown duration only sets a TTL and needs no numeric model here). -/
structure MonitorCfg where
  spike_threshold : Int
  fraud_threshold : Int
deriving DecidableEq

/-- Model of `UsageMonitor._create_alert`: return unchanged when the
cooldown key exists; otherwise write the alert row (the `int(user_id)`
conversion can raise, caught by the method's own handler) and set the
cooldown key. -/
def create_alert (user_id alert_type message severity : String)
    (st : MonitorState) : MonitorState :=
  let alertKey := "alert:" ++ user_id ++ ":" ++ alert_type
  if st.alertKeys.contains alertKey then st
  else
    match pyInt user_id with
    | none => { st with errors := st.errors ++ ["_create_alert"] }
    | some uid =>
      { st with
          dbAlerts := st.dbAlerts ++ [⟨uid, alert_type, message, severity⟩]
          alertKeys := st.alertKeys ++ [alertKey] }

/-- Trimming step of `_check_abnormal_patterns`: append the current total
and keep only the last 24 entries (`historical_usage[-24:]`). -/
def updateHistorical (h : List Int) (current : Int) : List Int :=
  let h1 := h ++ [current]
  if h1.length > 24 then h1.drop (h1.length - 24) else h1

/-- The abnormal-pattern condition of `_check_abnormal_patterns`:
`current_usage > avg_usage * 3` where `avg_usage = sum(historical) /
len(historical)` in Python float arithmetic, idealised as ℚ. -/
def abnormalCond (current : Int) (h : List Int) : Prop :=
  (current : ℚ) > ((h.sum : ℚ) / (h.length : ℚ)) * 3

/-- The rational comparison of `abnormalCond` is decided through an
equivalent integer test, so that concrete monitor runs evaluate inside the
kernel (the `h.length = 0` disjunct follows the ℚ division-by-zero
convention; the monitor only evaluates the condition on nonempty windows). -/
instance abnormalCondDec (current : Int) (h : List Int) : Decidable (abnormalCond current h) :=
  decidable_of_iff (0 < h.length ∧ 3 * h.sum < current * (h.length : Int)
      ∨ h.length = 0 ∧ 0 < current) (by
    unfold abnormalCond
    rcases Nat.eq_zero_or_pos h.length with h0 | hpos
    · rw [h0]
      simp only [Nat.cast_zero, div_zero, zero_mul, gt_iff_lt, lt_self_iff_false, false_and,
        false_or, true_and]
      exact Iff.symm Int.cast_pos
    · have hq : (0 : ℚ) < (h.length : ℚ) := by exact_mod_cast hpos
      constructor
      · rintro (⟨-, hlt⟩ | ⟨h0, -⟩)
        · rw [gt_iff_lt, div_mul_eq_mul_div, div_lt_iff₀ hq]
          calc ((h.sum : ℚ) * 3) = ((3 * h.sum : Int) : ℚ) := by push_cast; ring
            _ < ((current * (h.length : Int) : Int) : ℚ) := by exact_mod_cast hlt
            _ = (current : ℚ) * (h.length : ℚ) := by push_cast; ring
        · omega
      · intro hlt
        refine Or.inl ⟨hpos, ?_⟩
        rw [gt_iff_lt, div_mul_eq_mul_div, div_lt_iff₀ hq] at hlt
        have : ((3 * h.sum : Int) : ℚ) < ((current * (h.length : Int) : Int) : ℚ) := by
          push_cast
          push_cast at hlt
          linarith
        exact_mod_cast this)

/-- Model of `UsageMonitor._check_abnormal_patterns`: when a stored window
exists, compare the current total against 3x its average (`abnormalCond`)
and possibly raise an abnormal alert, then append-and-trim the window.  A
stored empty window makes `sum/len` raise ZeroDivisionError, which the
method's handler catches (logging it and skipping the update). -/
def check_abnormal_patterns (user_id model_id : String) (current : Int)
    (st : MonitorState) : MonitorState :=
  let hk := "historical:" ++ user_id ++ ":" ++ model_id
  match st.historical.lookup hk with
  | some h =>
    if h.length = 0 then
      { st with errors := st.errors ++ ["_check_abnormal_patterns"] }
    else
      let st1 :=
        if abnormalCond current h then
          create_alert user_id "abnormal"
            ("Abnormal usage pattern detected: " ++ toString current ++ " vs avg")
            "medium" st
        else st
      { st1 with historical := setKey hk (updateHistorical h current) st1.historical }
  | none =>
    { st with historical := setKey hk (updateHistorical [] current) st.historical }

/-- Model of `UsageMonitor._check_for_anomalies`: the spike rule, the fraud
rule and the abnormal-pattern rule, evaluated in order, none
short-circuiting another. -/
def check_for_anomalies (cfg : MonitorCfg) (user_id model_id : String)
    (current : Int) (st : MonitorState) : MonitorState :=
  let st1 :=
    if current > cfg.spike_threshold then
      create_alert user_id "spike"
        ("Token usage spike detected: " ++ toString current ++ " tokens in the last hour")
        "medium" st
    else st
  let st2 :=
    if current > cfg.fraud_threshold then
      create_alert user_id "fraud"
        ("Unusually high token usage detected: " ++ toString current ++ " tokens in the last hour")
        "high" st1
    else st1
  check_abnormal_patterns user_id model_id current st2

/-- Model of `UsageMonitor.record_usage`: increment the hourly Redis
counter, write the database row (whose `int(user_id)` conversion raises a
`ValueError` — caught by the method's blanket handler, which logs it and
skips the anomaly evaluation), then evaluate the anomaly rules.  `nowHour`
is the wall-clock hour bucket `%Y-%m-%d:%H`. -/
def monitor_record_usage (cfg : MonitorCfg) (nowHour : String)
    (usage : TokenUsage) (st : MonitorState) : MonitorState :=
  let key := "usage:" ++ usage.user_id ++ ":" ++ usage.model_id ++ ":" ++ nowHour
  let current := (st.counters.lookup key).getD 0
  let newUsage := current + usage.tokens_used
  let st1 := { st with counters := setKey key newUsage st.counters }
  match pyInt usage.user_id with
  | none => { st1 with errors := st1.errors ++ ["record_usage"] }
  | some uid =>
    let st2 := { st1 with
      dbRequests := st1.dbRequests ++ [⟨uid, usage.model_id, usage.tokens_used, usage.cost⟩] }
    check_for_anomalies cfg usage.user_id usage.model_id newUsage st2

/-- The empty monitor state (fresh Redis and database). -/
def MonitorState.empty : MonitorState :=
  ⟨[], [], [], [], [], []⟩

/-- Number of stored alert rows of the given type for the given user. -/
def alertCount (ty : String) (uid : Int) (st : MonitorState) : Nat :=
  (st.dbAlerts.filter (fun a => (a.alert_type == ty) && (a.user_id == uid))).length

/-! ## Concrete scenario inputs used by the claim theorems -/

/-- Settings with only a plausible OpenAI credential configured. -/
def settingsOpenAI : Settings :=
  ⟨some "sk-live", none, none, none⟩

/-- The response the generation oracle returns for a given model id (as
`create_response` would: `model_used` is the called model's id). -/
def respOf (mid : String) : PromptResponse :=
  ⟨"resp-uuid", "req-1", mid, "hello", 5, 0, "t0"⟩

/-- A registered model whose own token estimate of any non-tiny prompt
exceeds its `max_tokens` (estimator: character count, limit 10). -/
def modelOverLimit : Model :=
  ⟨"openai-gpt-4", "gpt-4", "openai", 0, 10, true, fun s => s.length⟩

/-- A registered model that accepts ordinary prompts (the common
characters-divided-by-4 estimator, limit 4096). -/
def modelHealthy : Model :=
  ⟨"openai-gpt-4", "gpt-4", "openai", 0, 4096, true, fun s => s.length / 4⟩

/-- A request explicitly preferring `openai-gpt-4`. -/
def reqPreferred : PromptRequest :=
  ⟨"req-1", "u1", "please write something long", "", some "openai-gpt-4", none⟩

/-- The same prompt with no model preference. -/
def reqPlain : PromptRequest :=
  ⟨"req-2", "u1", "please write something long", "", none, none⟩

/-- Environment whose single registered model is over the token limit for
`reqPreferred`'s prompt but has a valid credential; every generation call
succeeds. -/
def envPreferred : RouterEnv :=
  ⟨[modelOverLimit], settingsOpenAI, fun mid => .ok (respOf mid)⟩

/-- Environment with exactly one eligible model whose generation call
always raises (rendered as the string "boom"). -/
def envOneFailing : RouterEnv :=
  ⟨[modelHealthy], settingsOpenAI, fun _ => .error "boom"⟩

/-- Environment with exactly one eligible model whose generation call
succeeds. -/
def envOneHealthy : RouterEnv :=
  ⟨[modelHealthy], settingsOpenAI, fun mid => .ok (respOf mid)⟩

/-- Monitor thresholds of the spike scenario (the defaults 1000/10000). -/
def spikeCfg : MonitorCfg := ⟨1000, 10000⟩

/-- The fixed hour bucket of the spike scenario. -/
def spikeHour : String := "2025-01-01:10"

/-- One 100-token usage event of user "1" against model "m". -/
def spikeEvent : TokenUsage := ⟨"1", "m", 100, 0, "r"⟩

/-- State after n spike-scenario events recorded from a fresh state within
the same hour. -/
def spikeRun : Nat → MonitorState
  | 0 => MonitorState.empty
  | n + 1 => monitor_record_usage spikeCfg spikeHour spikeEvent (spikeRun n)

/-- A descriptor identical to `modelHealthy` except for a nonzero
cost_per_1k_tokens. -/
def modelPricey : Model :=
  ⟨"openai-gpt-4", "gpt-4", "openai", 1, 4096, true, fun s => s.length / 4⟩

/-- A fixed capability profile used to exercise the scorer. -/
def capsConversation : Capabilities :=
  ⟨"conversation", [], "short", "simple", "general", ["conversational"]⟩

/-! ## Helper lemmas -/

theorem lookup_setKey_self {β : Type} (k : String) (v : β) (l : List (String × β)) :
    (setKey k v l).lookup k = some v := by
  induction l with
  | nil => simp [setKey, List.lookup]
  | cons p rest ih =>
    obtain ⟨k', v'⟩ := p
    by_cases h : k' = k
    · simp [setKey, h, List.lookup]
    · have hinv : (k == k') = false := beq_eq_false_iff_ne.mpr (fun hh => h hh.symm)
      simp [setKey, h, List.lookup, hinv, ih]

theorem updateHistorical_length_le (h : List Int) (c : Int) :
    (updateHistorical h c).length ≤ 24 := by
  simp only [updateHistorical]
  split
  · rename_i hgt
    simp only [List.length_drop]
    omega
  · rename_i hle
    omega

theorem updateHistorical_getLast (h : List Int) (c : Int) :
    (updateHistorical h c).getLast? = some c := by
  simp only [updateHistorical]
  split
  · rename_i hgt
    have hle : (h ++ [c]).length - 24 ≤ h.length := by
      simp only [List.length_append, List.length_singleton] at hgt ⊢
      omega
    rw [List.drop_append_of_le_length hle, List.getLast?_concat]
  · exact List.getLast?_concat h

theorem create_alert_historical (u ty msg sev : String) (st : MonitorState) :
    (create_alert u ty msg sev st).historical = st.historical := by
  simp only [create_alert]
  split
  · rfl
  · split <;> rfl

theorem categoryScore_aux (plow : String) (w : Nat) (kws : List String) (acc : Nat) :
    kws.foldl (fun a kw => if pyContains plow kw then a + w else a) acc
      = acc + w * (kws.filter (fun kw => pyContains plow kw)).length := by
  induction kws generalizing acc with
  | nil => simp
  | cons k ks ih =>
    by_cases hk : pyContains plow k = true
    · simp only [List.foldl_cons, if_pos hk, List.filter_cons, hk, if_true, List.length_cons, ih]
      ring
    · simp [hk, ih]

theorem categoryScore_eq (plow : String) (kws : List String) (w : Nat) :
    categoryScore plow kws w = w * (kws.filter (fun kw => pyContains plow kw)).length := by
  simpa using categoryScore_aux plow w kws 0

theorem mem_insertScoreDesc {α β : Type} [LinearOrder β] (key : α → β) (a x : α)
    (l : List α) (hx : x ∈ insertScoreDesc key a l) : x = a ∨ x ∈ l := by
  induction l with
  | nil =>
    simp only [insertScoreDesc, List.mem_singleton] at hx
    exact Or.inl hx
  | cons y ys ih =>
    simp only [insertScoreDesc] at hx
    split at hx
    · simpa using hx
    · rcases List.mem_cons.mp hx with h | h
      · exact Or.inr (by simp [h])
      · rcases ih h with h' | h'
        · exact Or.inl h'
        · exact Or.inr (List.mem_cons_of_mem _ h')

theorem mem_sortScoreDesc {α β : Type} [LinearOrder β] (key : α → β) (x : α)
    (l : List α) (hx : x ∈ sortScoreDesc key l) : x ∈ l := by
  induction l with
  | nil => simp [sortScoreDesc] at hx
  | cons y ys ih =>
    rcases mem_insertScoreDesc key y x _ hx with h | h
    · simp [h]
    · exact List.mem_cons_of_mem _ (ih h)

theorem tryModels_ok (gen : String → Except String PromptResponse) (l : List Model)
    (le : Option String) (r : PromptResponse) (tr : List String) (l' : Option String)
    (h : tryModels gen l le = (some r, tr, l')) :
    ∃ m ∈ l, gen m.model_id = .ok r := by
  induction l generalizing le tr with
  | nil => simp [tryModels] at h
  | cons m rest ih =>
    simp only [tryModels] at h
    split at h
    · rename_i r0 hg
      simp only [Prod.mk.injEq, Option.some.injEq] at h
      obtain ⟨hr, -, -⟩ := h
      exact ⟨m, List.mem_cons_self _ _, by rw [hg, hr]⟩
    · rename_i e hg
      rcases htm : tryModels gen rest (some e) with ⟨res, tr2, l2⟩
      rw [htm] at h
      dsimp only at h
      simp only [Prod.mk.injEq] at h
      obtain ⟨hres, -, hl⟩ := h
      obtain ⟨m', hm', hg'⟩ := ih (some e) tr2 (by rw [htm, hres, hl])
      exact ⟨m', List.mem_cons_of_mem _ hm', hg'⟩

theorem mem_fallback_order (env : RouterEnv) (req : PromptRequest) (caps : Capabilities)
    (m : Model) (hm : m ∈ get_model_fallback_order env req caps) :
    m ∈ env.models ∧ check_api_key_availability env.settings m.provider = true
      ∧ is_available_for_request m req.prompt = true := by
  unfold get_model_fallback_order at hm
  rcases List.mem_map.mp hm with ⟨⟨m', s⟩, hmem, hfst⟩
  have h2 := mem_sortScoreDesc _ _ _ hmem
  rcases List.mem_map.mp h2 with ⟨m'', hm'', heq⟩
  have hm2 : m'' = m' := congrArg Prod.fst heq
  have hfl := List.mem_filter.mp hm''
  have hcond := hfl.2
  rw [Bool.and_eq_true] at hcond
  have hmmem : m ∈ env.models := by
    rw [← hfst]
    simp only at hfst ⊢
    rw [← hm2]
    exact hfl.1
  refine ⟨hmmem, ?_, ?_⟩
  · have : m' = m := hfst
    rw [← this, ← hm2]
    exact hcond.1
  · have : m' = m := hfst
    rw [← this, ← hm2]
    exact hcond.2

theorem dispatchFallback_ok (env : RouterEnv) (req : PromptRequest) (caps : Capabilities)
    (prefTrace : List String) (r : PromptResponse) (tr : List String)
    (h : dispatchFallback env req caps prefTrace = (.ok r, tr)) :
    ∃ m ∈ get_model_fallback_order env req caps, env.gen m.model_id = .ok r := by
  unfold dispatchFallback at h
  dsimp only at h
  split at h
  · simp at h
  · split at h
    · rename_i r2 tr2 le2 htm
      simp only [Prod.mk.injEq, Except.ok.injEq] at h
      obtain ⟨hr, -⟩ := h
      obtain ⟨m, hm, hg⟩ := tryModels_ok env.gen _ none r2 tr2 le2 htm
      exact ⟨m, hm, by rw [hg, hr]⟩
    · simp at h

theorem preferredAttempt_some (env : RouterEnv) (req : PromptRequest)
    (res : Option PromptResponse) (mid : String)
    (h : preferredAttempt env req = some (res, mid)) :
    ∃ p m, req.model_preference = some p ∧ p ≠ "auto"
      ∧ get_model_by_id env p = some m
      ∧ check_api_key_availability env.settings m.provider = true
      ∧ mid = m.model_id
      ∧ (∀ r, res = some r → env.gen m.model_id = .ok r) := by
  unfold preferredAttempt at h
  split at h
  · exact absurd h (by simp)
  · rename_i p hp
    split at h
    · exact absurd h (by simp)
    · rename_i hauto
      split at h
      · exact absurd h (by simp)
      · rename_i m hid
        split at h
        · rename_i hkey
          split at h
          · rename_i r0 hg
            simp only [Option.some.injEq, Prod.mk.injEq] at h
            obtain ⟨hres, hmid⟩ := h
            exact ⟨p, m, hp, hauto, hid, hkey, hmid.symm,
              fun r hr => by rw [← hres] at hr; injection hr with hr2; rw [hg, hr2]⟩
          · rename_i e hg
            simp only [Option.some.injEq, Prod.mk.injEq] at h
            obtain ⟨hres, hmid⟩ := h
            exact ⟨p, m, hp, hauto, hid, hkey, hmid.symm,
              fun r hr => by rw [← hres] at hr; cases hr⟩
        · exact absurd h (by simp)

theorem create_alert_of_contains (u ty msg sev : String) (st : MonitorState)
    (h : st.alertKeys.contains ("alert:" ++ u ++ ":" ++ ty) = true) :
    create_alert u ty msg sev st = st := by
  simp only [create_alert]
  rw [if_pos h]

theorem alertCount_create_alert_ne (ty : String) (uid : Int) (u ty' msg sev : String)
    (st : MonitorState) (hne : ty' ≠ ty) :
    alertCount ty uid (create_alert u ty' msg sev st) = alertCount ty uid st := by
  simp only [create_alert]
  split
  · rfl
  · split
    · rfl
    · simp [alertCount, List.filter_append, beq_eq_false_iff_ne.mpr hne]

theorem alertCount_check_abnormal (ty : String) (uid : Int) (u mo : String) (current : Int)
    (st : MonitorState) (hne : ty ≠ "abnormal") :
    alertCount ty uid (check_abnormal_patterns u mo current st) = alertCount ty uid st := by
  simp only [check_abnormal_patterns]
  split
  · split
    · rfl
    · split
      · exact alertCount_create_alert_ne ty uid _ _ _ _ st (Ne.symm hne)
      · rfl
  · rfl

theorem alertCount_spike_cooldown (cfg : MonitorCfg) (u mo : String) (uid : Int)
    (current : Int) (st : MonitorState)
    (hmem : st.alertKeys.contains ("alert:" ++ u ++ ":" ++ "spike") = true) :
    alertCount "spike" uid (check_for_anomalies cfg u mo current st)
      = alertCount "spike" uid st := by
  simp only [check_for_anomalies]
  by_cases hsp : current > cfg.spike_threshold
  · rw [if_pos hsp, create_alert_of_contains _ _ _ _ _ hmem]
    by_cases hfr : current > cfg.fraud_threshold
    · rw [if_pos hfr, alertCount_check_abnormal _ _ _ _ _ _ (by decide),
        alertCount_create_alert_ne _ _ _ _ _ _ _ (by decide)]
    · rw [if_neg hfr, alertCount_check_abnormal _ _ _ _ _ _ (by decide)]
  · rw [if_neg hsp]
    by_cases hfr : current > cfg.fraud_threshold
    · rw [if_pos hfr, alertCount_check_abnormal _ _ _ _ _ _ (by decide),
        alertCount_create_alert_ne _ _ _ _ _ _ _ (by decide)]
    · rw [if_neg hfr, alertCount_check_abnormal _ _ _ _ _ _ (by decide)]

/-! ## Claim theorems -/

/-- C1 counterexample: with `model_preference` naming a credentialed model
whose own token estimate (27 characters) exceeds its max_tokens (10), the
Router returns that model's response even though the model is not
request-eligible — indeed the eligible set is empty.  The preference path
of `process_request` checks only the credential, not
`is_available_for_request`. -/
theorem C1_counterexample :
    process_request envPreferred reqPreferred = (.ok (respOf "openai-gpt-4"), ["openai-gpt-4"])
    ∧ modelOverLimit ∈ envPreferred.models
    ∧ (respOf "openai-gpt-4").model_used = modelOverLimit.model_id
    ∧ is_available_for_request modelOverLimit reqPreferred.prompt = false
    ∧ get_model_fallback_order envPreferred reqPreferred
        (detect_capabilities reqPreferred.prompt) = [] :=
  ⟨rfl, List.mem_singleton_self _, rfl, rfl, rfl⟩

/-- C1 (amended): every response returned by `process_request` comes either
from the preferred-model path — where only the credential check is applied,
so the token-estimate bound may be violated — or from the fallback path,
whose provider is fully eligible (valid credential, availability flag set,
own token estimate at most max_tokens). -/
theorem C1_eligible_or_preferred (env : RouterEnv) (req : PromptRequest)
    (r : PromptResponse) (tr : List String)
    (hwf : ∀ mid r', env.gen mid = .ok r' → r'.model_used = mid)
    (h : process_request env req = (.ok r, tr)) :
    (∃ p m, req.model_preference = some p ∧ p ≠ "auto"
        ∧ get_model_by_id env p = some m
        ∧ check_api_key_availability env.settings m.provider = true
        ∧ r.model_used = m.model_id)
    ∨ (∃ m, m ∈ env.models
        ∧ check_api_key_availability env.settings m.provider = true
        ∧ is_available_for_request m req.prompt = true
        ∧ r.model_used = m.model_id) := by
  unfold process_request at h
  rcases hpa : preferredAttempt env req with _ | ⟨_ | r0, mid⟩ <;>
    simp only [hpa] at h
  · obtain ⟨m, hm, hg⟩ := dispatchFallback_ok env req _ [] r tr h
    obtain ⟨h1, h2, h3⟩ := mem_fallback_order env req _ m hm
    exact Or.inr ⟨m, h1, h2, h3, hwf m.model_id r hg⟩
  · obtain ⟨m, hm, hg⟩ := dispatchFallback_ok env req _ [mid] r tr h
    obtain ⟨h1, h2, h3⟩ := mem_fallback_order env req _ m hm
    exact Or.inr ⟨m, h1, h2, h3, hwf m.model_id r hg⟩
  · obtain ⟨p, m, hp, hauto, hid, hkey, -, hgen⟩ :=
      preferredAttempt_some env req (some r0) mid hpa
    simp only [Prod.mk.injEq, Except.ok.injEq] at h
    obtain ⟨hr, -⟩ := h
    have hg := hgen r0 rfl
    exact Or.inl ⟨p, m, hp, hauto, hid, hkey, by rw [← hr]; exact hwf m.model_id r0 hg⟩

/-- C1 witness: the amended statement at an environment with one healthy,
credentialed model and a request with no preference — the response comes
from the eligible model. -/
theorem C1_witness :
    (∃ p m, reqPlain.model_preference = some p ∧ p ≠ "auto"
        ∧ get_model_by_id envOneHealthy p = some m
        ∧ check_api_key_availability envOneHealthy.settings m.provider = true
        ∧ (respOf "openai-gpt-4").model_used = m.model_id)
    ∨ (∃ m, m ∈ envOneHealthy.models
        ∧ check_api_key_availability envOneHealthy.settings m.provider = true
        ∧ is_available_for_request m reqPlain.prompt = true
        ∧ (respOf "openai-gpt-4").model_used = m.model_id) :=
  C1_eligible_or_preferred envOneHealthy reqPlain (respOf "openai-gpt-4") ["openai-gpt-4"]
    (fun mid r' h => by
      have h2 : respOf mid = r' := by injection h
      rw [← h2]
      rfl)
    rfl

/-- C2 counterexample: the two Router failure outcomes are not distinct
error kinds — with zero eligible providers and with one eligible provider
whose call fails, the raised exception has the same Python type
(`ValueError`) in both cases; only the messages differ. -/
theorem C2_counterexample :
    (process_request envPreferred reqPlain).1
        = .error ⟨"ValueError", "No suitable model available for this request"⟩
    ∧ (process_request envOneFailing reqPlain).1
        = .error ⟨"ValueError", "All 1 available models failed. Last error: boom"⟩
    ∧ (PyError.mk "ValueError" "No suitable model available for this request").py_type
        = (PyError.mk "ValueError" "All 1 available models failed. Last error: boom").py_type :=
  ⟨rfl, rfl, rfl⟩

/-- C2 (amended): with no model preference, an empty eligible set makes the
Router raise `ValueError("No suitable model available for this request")`
without invoking any provider's generate call (empty invocation trace),
and a single eligible provider whose call raises makes it raise a
`ValueError` whose message carries the last underlying error — the same
exception type in both cases, distinguished only by message. -/
theorem C2_failure_modes (env : RouterEnv) (req : PromptRequest)
    (hpref : req.model_preference = none) :
    (get_model_fallback_order env req (detect_capabilities req.prompt) = [] →
      process_request env req =
        (.error ⟨"ValueError", "No suitable model available for this request"⟩, []))
    ∧ (∀ (m : Model) (e : String),
        get_model_fallback_order env req (detect_capabilities req.prompt) = [m] →
        env.gen m.model_id = .error e →
        process_request env req =
          (.error ⟨"ValueError",
            "All " ++ toString ([m] : List Model).length
              ++ " available models failed. Last error: " ++ e⟩,
           [m.model_id])) := by
  have hpa : preferredAttempt env req = none := by
    unfold preferredAttempt
    rw [hpref]
  constructor
  · intro hfb
    simp only [process_request, hpa, dispatchFallback, hfb]
  · intro m e hfb hg
    have htm : tryModels env.gen [m] none = (none, [m.model_id], some e) := by
      simp [tryModels, hg]
    simp only [process_request, hpa, dispatchFallback, hfb, htm]
    rfl

/-- C2 witness: the amended statement at a zero-eligible environment and at
a one-eligible environment whose single call fails with "boom". -/
theorem C2_witness :
    process_request envPreferred reqPlain
        = (.error ⟨"ValueError", "No suitable model available for this request"⟩, [])
    ∧ process_request envOneFailing reqPlain
        = (.error ⟨"ValueError", "All 1 available models failed. Last error: boom"⟩,
           ["openai-gpt-4"]) :=
  ⟨(C2_failure_modes envPreferred reqPlain rfl).1 rfl,
   (C2_failure_modes envOneFailing reqPlain rfl).2 modelHealthy "boom" rfl rfl⟩

/-- C3 counterexample: the claim "category score = weight times the number
of distinct matched keywords" fails at the prompt "screenshot" for the
`visual_analysis` category: the source lists the keyword 'screenshot'
twice, so `detect_capabilities` scores it 18 = 9 x 2, while the distinct
matched-keyword count is 1 (claimed score 9). -/
theorem C3_counterexample :
    categoryScore (pyLower "screenshot") visualAnalysisKeywords 9
        ≠ 9 * ((visualAnalysisKeywords.dedup.filter
            (fun kw => pyContains (pyLower "screenshot") kw)).length)
      ∧ ("visual_analysis", visualAnalysisKeywords, (9 : Nat)) ∈ taskPatterns
      ∧ (taskScoresOf (pyLower "screenshot")).lookup "visual_analysis" = some 18 := by
  refine ⟨by decide, by decide, by decide⟩

/-- C3 (amended): for every prompt and task category, the category's score
computed by `detect_capabilities` equals the category's weight multiplied
by the number of keyword-list entries — counted with multiplicity — that
occur as case-insensitive substrings of the prompt; for every category
other than `visual_analysis` (whose list contains 'screenshot' twice) this
entry count coincides with the distinct matched-keyword count. -/
theorem C3_score_multiplicity (prompt : String) (p : String × List String × Nat)
    (hp : p ∈ taskPatterns) :
    categoryScore (pyLower prompt) p.2.1 p.2.2
        = p.2.2 * ((p.2.1.filter (fun kw => pyContains (pyLower prompt) kw)).length)
      ∧ (p.1 ≠ "visual_analysis" →
          ((p.2.1.filter (fun kw => pyContains (pyLower prompt) kw)).length)
            = ((p.2.1.dedup.filter (fun kw => pyContains (pyLower prompt) kw)).length)) := by
  refine ⟨categoryScore_eq _ _ _, fun hne => ?_⟩
  have hnd : ∀ q ∈ taskPatterns, q.1 ≠ "visual_analysis" → q.2.1.Nodup := by decide
  rw [List.dedup_eq_self.mpr (hnd p hp hne)]

/-- C3 witness: the amended statement at the prompt "debug this code" and
the `coding` category. -/
theorem C3_witness :
    categoryScore (pyLower "debug this code") codingKeywords 10
        = 10 * ((codingKeywords.filter
            (fun kw => pyContains (pyLower "debug this code") kw)).length)
      ∧ ("coding" ≠ "visual_analysis" →
          ((codingKeywords.filter (fun kw => pyContains (pyLower "debug this code") kw)).length)
            = ((codingKeywords.dedup.filter
                (fun kw => pyContains (pyLower "debug this code") kw)).length)) :=
  C3_score_multiplicity "debug this code" ("coding", codingKeywords, 10) (by decide)

/-- C4: in the spike scenario (fresh state, spike threshold 1000, eleven
100-token events of user "1" on model "m" within one hour) no spike alert
exists after ten events, exactly one spike alert exists after the eleventh
event — the first to push the hourly total over the threshold — the
cooldown key is then present, and every further event recorded in the same
hour (any token count, cost, request id) leaves the spike-alert count at
one. -/
theorem C4_spike_alert_once :
    alertCount "spike" 1 (spikeRun 10) = 0
    ∧ alertCount "spike" 1 (spikeRun 11) = 1
    ∧ (spikeRun 11).alertKeys.contains ("alert:" ++ "1" ++ ":" ++ "spike") = true
    ∧ ∀ (tk : Int) (c : ℚ) (rid : String),
        alertCount "spike" 1
          (monitor_record_usage spikeCfg spikeHour ⟨"1", "m", tk, c, rid⟩ (spikeRun 11)) = 1 := by
  refine ⟨by decide, by decide, by decide, ?_⟩
  intro tk c rid
  have hstep : monitor_record_usage spikeCfg spikeHour ⟨"1", "m", tk, c, rid⟩ (spikeRun 11)
      = check_for_anomalies spikeCfg "1" "m" (1100 + tk)
          { spikeRun 11 with
              counters := setKey ("usage:" ++ "1" ++ ":" ++ "m" ++ ":" ++ spikeHour)
                (1100 + tk) (spikeRun 11).counters
              dbRequests := (spikeRun 11).dbRequests ++ [⟨1, "m", tk, c⟩] } := rfl
  have hmem : (spikeRun 11).alertKeys.contains ("alert:" ++ "1" ++ ":" ++ "spike") = true := by
    decide
  have hcount : alertCount "spike" 1 (spikeRun 11) = 1 := by decide
  rw [hstep]
  refine (alertCount_spike_cooldown spikeCfg "1" "m" 1 (1100 + tk) _ ?_).trans ?_
  · exact hmem
  · exact hcount

/-- C5: for every prompt in which no task-category keyword and no
specific-requirement keyword matches, `detect_capabilities` returns the
default profile: `primary_task = text_generation` and an empty
`specific_requirements` list. -/
theorem C5_default_profile (prompt : String)
    (h1 : ∀ p ∈ taskPatterns, ∀ kw ∈ p.2.1, pyContains (pyLower prompt) kw = false)
    (h2 : ∀ p ∈ requirementChecks, ∀ w ∈ p.2, pyContains (pyLower prompt) w = false) :
    (detect_capabilities prompt).primary_task = "text_generation"
    ∧ (detect_capabilities prompt).specific_requirements = [] := by
  have hts : taskScoresOf (pyLower prompt) = [] := by
    simp only [taskScoresOf]
    rw [List.filterMap_eq_nil]
    intro p hp
    have hz : categoryScore (pyLower prompt) p.2.1 p.2.2 = 0 := by
      rw [categoryScore_eq]
      have hf : p.2.1.filter (fun kw => pyContains (pyLower prompt) kw) = [] := by
        rw [List.filter_eq_nil]
        intro kw hkw
        simp [h1 p hp kw hkw]
      rw [hf]
      simp
    simp [hz]
  constructor
  · simp [detect_capabilities, hts, sortScoreDesc]
  · simp only [detect_capabilities]
    rw [List.filterMap_eq_nil]
    intro p hp
    have ha : p.2.any (fun w => pyContains (pyLower prompt) w) = false := by
      rw [List.any_eq_false]
      intro w hw
      simp [h2 p hp w hw]
    simp [ha]

/-- C5 witness: the prompt "zzz" matches no task keyword and no
requirement keyword, and gets the default profile. -/
theorem C5_witness :
    (detect_capabilities "zzz").primary_task = "text_generation"
    ∧ (detect_capabilities "zzz").specific_requirements = [] :=
  C5_default_profile "zzz" (by decide) (by decide)

/-- C6: for every fixed capability profile, `calculate_model_score` is
monotonically decreasing in `cost_per_1k_tokens` between two descriptors
that agree on everything the scorer reads apart from the cost: the cheaper
descriptor scores at least as high. -/
theorem C6_cost_antitone (m1 m2 : Model) (caps : Capabilities)
    (hp : m1.provider = m2.provider)
    (hc : m1.cost_per_1k_tokens ≤ m2.cost_per_1k_tokens) :
    calculate_model_score m2 caps ≤ calculate_model_score m1 caps := by
  unfold calculate_model_score
  rw [hp]
  by_cases hmem : m2.provider ∈ strengthProviders
  · rw [if_pos hmem, if_pos hmem]
    have hmul := mul_le_mul_of_nonneg_right hc (by norm_num : (0 : ℚ) ≤ 1000)
    linarith
  · rw [if_neg hmem, if_neg hmem]

/-- C6 witness: with the conversation profile fixed, the descriptor with
cost 1 per 1k tokens scores no higher than the identical descriptor with
cost 0. -/
theorem C6_witness :
    calculate_model_score modelPricey capsConversation
      ≤ calculate_model_score modelHealthy capsConversation :=
  C6_cost_antitone modelHealthy modelPricey capsConversation rfl zero_le_one

/-- C7: `CostLedger.record_usage` is additive and order-commutative —
recording (100 tokens, cost 0.01) and then (50 tokens, cost 0.005) for a
provider produces exactly the same monthly totals (tokens_used, cost,
requests) as recording the two events in the reverse order, from any
starting ledger state. -/
theorem C7_record_usage_commutes (mu : String → Option MonthlyUsage) (provider : String) :
    costRecordUsage (costRecordUsage mu provider 100 (1/100)) provider 50 (1/200)
      = costRecordUsage (costRecordUsage mu provider 50 (1/200)) provider 100 (1/100) := by
  funext k
  simp only [costRecordUsage]
  by_cases hk : k = provider
  · simp only [hk, eq_self_iff_true, if_true, Option.getD_some, MonthlyUsage.mk.injEq,
      Option.some.injEq]
    refine ⟨by omega, by ring, trivial⟩
  · simp only [if_neg hk]

/-- C8: every `PromptResponse` built by a provider adapter's
`create_response` has cost `(tokens_used / 1000) * cost_per_1k_tokens` for
that adapter and `request_id` equal to the id of the request it answers. -/
theorem C8_response_cost_request_id (m : Model) (req : PromptRequest) (text : String)
    (tokens : Int) (uuid now : String) :
    (create_response m req text tokens uuid now).cost
        = ((tokens : ℚ) / 1000) * m.cost_per_1k_tokens
      ∧ (create_response m req text tokens uuid now).request_id = req.id :=
  ⟨rfl, rfl⟩

/-- C9: after every update performed by the abnormal-pattern check (every
run that does not abort on a malformed stored window, which would raise
ZeroDivisionError and skip the update), the stored historical window for
the (user, provider-model) pair has at most 24 entries and its last entry
is the current-hour total just appended. -/
theorem C9_history_window_bound (user_id model_id : String) (current : Int) (st : MonitorState)
    (h : st.historical.lookup ("historical:" ++ user_id ++ ":" ++ model_id)
      ≠ some ([] : List Int)) :
    ∃ w, (check_abnormal_patterns user_id model_id current st).historical.lookup
        ("historical:" ++ user_id ++ ":" ++ model_id) = some w
      ∧ w.length ≤ 24 ∧ w.getLast? = some current := by
  unfold check_abnormal_patterns
  rcases hl : st.historical.lookup ("historical:" ++ user_id ++ ":" ++ model_id) with _ | w
  · simp only [hl]
    exact ⟨updateHistorical [] current, lookup_setKey_self _ _ _,
      updateHistorical_length_le _ _, updateHistorical_getLast _ _⟩
  · have hw : w ≠ [] := fun h0 => h (by rw [hl, h0])
    have hlen : ¬(w.length = 0) := by simpa [List.length_eq_zero] using hw
    simp only [hl, if_neg hlen]
    exact ⟨updateHistorical w current, lookup_setKey_self _ _ _,
      updateHistorical_length_le _ _, updateHistorical_getLast _ _⟩

/-- C9 witness: a concrete run of the abnormal-pattern check (fresh state,
no stored window) whose stored window afterwards is the one-element list
[500]. -/
theorem C9_witness :
    MonitorState.empty.historical.lookup "historical:1:m" ≠ some ([] : List Int)
    ∧ ∃ w, (check_abnormal_patterns "1" "m" 500 MonitorState.empty).historical.lookup
        "historical:1:m" = some w ∧ w.length ≤ 24 ∧ w.getLast? = some 500 :=
  ⟨by decide, C9_history_window_bound "1" "m" 500 MonitorState.empty (by decide)⟩

/-- C10: `UsageMonitor.record_usage` never propagates an exception; when
the event's user_id is not a decimal integer string the database write
raises, the blanket handler logs the error and returns, so no anomaly
evaluation runs and no alert is created — but the hourly Redis counter was
already incremented before the failing write. -/
theorem C10_swallowed_db_error (cfg : MonitorCfg) (nowHour : String) (usage : TokenUsage)
    (st : MonitorState) (h : pyInt usage.user_id = none) :
    monitor_record_usage cfg nowHour usage st =
      { st with
          counters := setKey ("usage:" ++ usage.user_id ++ ":" ++ usage.model_id ++ ":" ++ nowHour)
            (((st.counters.lookup
                ("usage:" ++ usage.user_id ++ ":" ++ usage.model_id ++ ":" ++ nowHour)).getD 0)
              + usage.tokens_used) st.counters
          errors := st.errors ++ ["record_usage"] } := by
  unfold monitor_record_usage
  rw [h]

/-- C10 witness: a concrete event with non-numeric user id "abc" recorded
against a fresh state — only the hourly counter and the error log change. -/
theorem C10_witness :
    monitor_record_usage spikeCfg spikeHour ⟨"abc", "m", 5, 0, "r"⟩ MonitorState.empty =
      ⟨[("usage:abc:m:2025-01-01:10", 5)], [], [], [], [], ["record_usage"]⟩ :=
  C10_swallowed_db_error spikeCfg spikeHour ⟨"abc", "m", 5, 0, "r"⟩ MonitorState.empty rfl

end Hapivet
